import Mathlib

/-!
Verification development for the aegis backup agent.

The definitions below shallow-embed the agent's core data model and
operations (label sanitization, retention-argument derivation, the drive
marker store, the restic process wrapper's command construction, the
runtime state, the USB removal handler, and the IPC backup/restore
handlers).  Strings from the source are modelled as Lean strings, Rust
machine integers as Nat, hash maps and sets as association lists and
lists, and external effects (filesystem, keychain, subprocess outcomes)
as explicit oracle parameters.  Theorems at the end settle the spec's
claims against these definitions.
-/

namespace Aegis

/-- Unicode Cc category test used by Rust's char.is_control:
U+0000 to U+001F and U+007F to U+009F. -/
def rustIsControl (c : Char) : Bool :=
  c.val < 0x20 || (0x7F ≤ c.val && c.val ≤ 0x9F)

/-- Unicode White_Space property test used by Rust's char.is_whitespace
(and hence by str::trim). -/
def rustIsWhitespace (c : Char) : Bool :=
  (0x9 ≤ c.val && c.val ≤ 0xD) || c.val == 0x20 || c.val == 0x85 || c.val == 0xA0 ||
  c.val == 0x1680 || (0x2000 ≤ c.val && c.val ≤ 0x200A) || c.val == 0x2028 ||
  c.val == 0x2029 || c.val == 0x202F || c.val == 0x205F || c.val == 0x3000

/-- Max length for in-app drive/source labels (config.rs LABEL_MAX_LEN). -/
def LABEL_MAX_LEN : Nat := 512

/-- Left trim of Rust str::trim: drop leading whitespace. -/
def trimLeft (l : List Char) : List Char := l.dropWhile rustIsWhitespace

/-- Right trim of Rust str::trim: drop trailing whitespace. -/
def trimRight (l : List Char) : List Char :=
  List.rdropWhile rustIsWhitespace l

/-- Rust str::trim: drop leading and trailing whitespace. -/
def rustTrim (l : List Char) : List Char := trimRight (trimLeft l)

/-- Model of config.rs sanitize_label: trim, remove control chars, cap the
length at LABEL_MAX_LEN chars, trim again; None when the result is empty. -/
def sanitize_label (s : List Char) : Option (List Char) :=
  let t := rustTrim s
  let out := (t.filter (fun c => !rustIsControl c)).take LABEL_MAX_LEN
  let out2 := rustTrim out
  if out2.isEmpty then none else some out2

/-- String-level wrapper for sanitize_label. -/
def sanitizeLabelStr (s : String) : Option String :=
  (sanitize_label s.data).map String.mk

/-- Model of retention.rs RetentionPolicy (u32 fields as Nat). -/
structure RetentionPolicy where
  enabled : Bool
  keep_last : Nat
  keep_daily : Nat
  keep_weekly : Nat
  keep_monthly : Nat
  keep_yearly : Nat
  min_snapshots : Nat
  deriving Repr, DecidableEq

/-- Default RetentionPolicy from retention.rs. -/
def RetentionPolicy.default_policy : RetentionPolicy :=
  { enabled := false, keep_last := 0, keep_daily := 0, keep_weekly := 0,
    keep_monthly := 0, keep_yearly := 0, min_snapshots := 3 }

/-- Model of RetentionPolicy::to_forget_args: empty when disabled,
otherwise the keep flags in fixed order, keep-last floored by
min_snapshots, each flag only when its value is positive. -/
def RetentionPolicy.to_forget_args (p : RetentionPolicy) : List String :=
  if !p.enabled then []
  else
    let keep_last := max p.keep_last p.min_snapshots
    (if keep_last > 0 then ["--keep-last", toString keep_last] else []) ++
    (if p.keep_daily > 0 then ["--keep-daily", toString p.keep_daily] else []) ++
    (if p.keep_weekly > 0 then ["--keep-weekly", toString p.keep_weekly] else []) ++
    (if p.keep_monthly > 0 then ["--keep-monthly", toString p.keep_monthly] else []) ++
    (if p.keep_yearly > 0 then ["--keep-yearly", toString p.keep_yearly] else [])

/-- Spec-side description of a retention flag-value pair: present exactly
when the value is nonzero.  Written from the spec's words, for comparison
with to_forget_args. -/
def specFlagPair (flag : String) (v : Nat) : List String :=
  if v ≠ 0 then [flag, toString v] else []

/-- Helper: trimLeft applied twice equals trimLeft once. -/
theorem trimLeft_trimLeft (l : List Char) : trimLeft (trimLeft l) = trimLeft l :=
  List.dropWhile_idempotent rustIsWhitespace l

/-- Helper: trimRight applied twice equals trimRight once. -/
theorem trimRight_trimRight (l : List Char) : trimRight (trimRight l) = trimRight l :=
  List.rdropWhile_idempotent rustIsWhitespace l

/-- Helper: a list with no leading whitespace keeps that property under
right trimming. -/
theorem trimLeft_trimRight (l : List Char) (h : trimLeft l = l) :
    trimLeft (trimRight l) = trimRight l := by
  obtain ⟨t, ht⟩ : trimRight l <+: l := List.rdropWhile_prefix rustIsWhitespace l
  cases hy : trimRight l with
  | nil => simp [trimLeft]
  | cons a y =>
    have hl : l = a :: (y ++ t) := by rw [← ht, hy]; rfl
    have ha : rustIsWhitespace a = false := by
      rw [hl] at h
      by_contra hcon
      have ha2 : rustIsWhitespace a = true := by
        cases h2 : rustIsWhitespace a with
        | false => exact absurd h2 hcon
        | true => rfl
      unfold trimLeft at h
      rw [List.dropWhile_cons, ha2] at h
      simp only [if_true] at h
      have hlen := congrArg List.length h
      rw [List.length_cons] at hlen
      have hle := (List.dropWhile_suffix (l := y ++ t) rustIsWhitespace).length_le
      omega
    unfold trimLeft
    rw [List.dropWhile_cons, ha]
    simp

/-- Helper: rustTrim is idempotent. -/
theorem rustTrim_idem (l : List Char) : rustTrim (rustTrim l) = rustTrim l := by
  unfold rustTrim
  rw [trimLeft_trimRight (trimLeft l) (trimLeft_trimLeft l), trimRight_trimRight]

/-- Helper: rustTrim yields a subset of the original characters. -/
theorem rustTrim_subset (l : List Char) : ∀ c ∈ rustTrim l, c ∈ l := by
  intro c hc
  have h1 : c ∈ trimLeft l :=
    (List.rdropWhile_prefix rustIsWhitespace (trimLeft l)).subset hc
  exact (List.dropWhile_suffix rustIsWhitespace).subset h1

/-- Helper: rustTrim never lengthens a list. -/
theorem rustTrim_length_le (l : List Char) : (rustTrim l).length ≤ l.length := by
  have h1 : (trimRight (trimLeft l)).length ≤ (trimLeft l).length :=
    (List.rdropWhile_prefix rustIsWhitespace (trimLeft l)).length_le
  have h2 : (trimLeft l).length ≤ l.length :=
    (List.dropWhile_suffix (l := l) rustIsWhitespace).length_le
  exact le_trans h1 h2

/-- Helper: dropping a whitespace-only list from the left leaves nothing. -/
theorem trimLeft_all_whitespace (l : List Char) (h : ∀ c ∈ l, rustIsWhitespace c = true) :
    trimLeft l = [] := by
  unfold trimLeft
  induction l with
  | nil => rfl
  | cons a t ih =>
    rw [List.dropWhile_cons, h a (by simp)]
    simp only [if_true]
    exact ih (fun c hc => h c (by simp [hc]))

/-- C5: to_forget_args of a retention policy is empty when the policy is
disabled; when enabled it is exactly the flag-value pairs in the fixed
order keep-last, keep-daily, keep-weekly, keep-monthly, keep-yearly, with
the keep-last value equal to max keep_last min_snapshots and each pair
present iff its value is nonzero. -/
theorem to_forget_args_c5 (p : RetentionPolicy) :
    p.to_forget_args =
      if p.enabled then
        specFlagPair "--keep-last" (max p.keep_last p.min_snapshots) ++
        specFlagPair "--keep-daily" p.keep_daily ++
        specFlagPair "--keep-weekly" p.keep_weekly ++
        specFlagPair "--keep-monthly" p.keep_monthly ++
        specFlagPair "--keep-yearly" p.keep_yearly
      else [] := by
  unfold RetentionPolicy.to_forget_args specFlagPair
  cases hp : p.enabled <;> simp [Nat.pos_iff_ne_zero, imp_iff_not_or]

/-- C7: sanitize_label is idempotent on any label it accepts, its output
never contains control characters and never exceeds LABEL_MAX_LEN chars,
and any empty or all-whitespace input sanitizes to none. -/
theorem sanitize_label_c7 (s y w : List Char)
    (hs : sanitize_label s = some y)
    (hw : ∀ c ∈ w, rustIsWhitespace c = true) :
    sanitize_label y = some y ∧
    (∀ c ∈ y, rustIsControl c = false) ∧
    y.length ≤ LABEL_MAX_LEN ∧
    sanitize_label w = none := by
  have h1 : trimLeft w = [] := trimLeft_all_whitespace w hw
  have h0 : rustTrim w = [] := by rw [rustTrim, h1]; rfl
  have hwnone : sanitize_label w = none := by
    simp only [sanitize_label, h0]
    rfl
  simp only [sanitize_label] at hs
  split at hs
  · exact absurd hs (by simp)
  · rename_i hne
    injection hs with hy
    have hyc : ∀ c ∈ y, rustIsControl c = false := by
      intro c hc
      rw [← hy] at hc
      have h2 := rustTrim_subset _ c hc
      have h3 := List.take_subset _ _ h2
      have h4 := List.of_mem_filter h3
      simpa using h4
    have hylen : y.length ≤ LABEL_MAX_LEN := by
      rw [← hy]
      exact le_trans (rustTrim_length_le _) (List.length_take_le _ _)
    have htr : rustTrim y = y := by rw [← hy, rustTrim_idem]
    have hfl : y.filter (fun c => !rustIsControl c) = y :=
      List.filter_eq_self.mpr (by intro a ha; simpa using hyc a ha)
    have htk : y.take LABEL_MAX_LEN = y := List.take_of_length_le hylen
    have hys : sanitize_label y = some y := by
      rw [hy] at hne
      simp only [sanitize_label, htr, hfl, htk]
      rw [if_neg hne]
    exact ⟨hys, hyc, hylen, hwnone⟩

/-- Witness for sanitize_label_c7 at a concrete accepted label and a
concrete all-whitespace input. -/
theorem sanitize_label_c7_witness :
    sanitize_label ['a', 'b'] = some ['a', 'b'] ∧
    (∀ c ∈ [' ', '\t'], rustIsWhitespace c = true) ∧
    (sanitize_label ['a', 'b'] = some ['a', 'b'] ∧
      (∀ c ∈ ['a', 'b'], rustIsControl c = false) ∧
      ['a', 'b'].length ≤ LABEL_MAX_LEN ∧
      sanitize_label [' ', '\t'] = none) :=
  ⟨by decide, by decide,
    sanitize_label_c7 ['a', 'b'] ['a', 'b'] [' ', '\t'] (by decide) (by decide)⟩

/-- Model of config.rs BackupSource. -/
structure BackupSource where
  label : String
  path : String
  deriving Repr, DecidableEq

/-- Model of config.rs TrustedDrive (epochs as Nat). -/
structure TrustedDrive where
  drive_id : String
  label : Option String
  repository_path : String
  repository_id : Option String
  last_seen_epoch : Option Nat
  last_backup_epoch : Option Nat
  last_backup_snapshot_id : Option String
  backup_sources : Option (List BackupSource)
  deriving Repr, DecidableEq

/-- Model of config.rs AgentConfig; the trusted-drive hash map is an
association list keyed by drive id. -/
structure AgentConfig where
  trusted_drives : List (String × TrustedDrive)
  backup_sources : List BackupSource
  include_patterns : List String
  exclude_patterns : List String
  retention : RetentionPolicy
  quick_verify : Bool
  deep_verify : Bool
  auto_backup_on_insert : Bool
  remember_passphrase : Bool
  paranoid_mode : Bool
  restic_path : Option String
  deriving Repr, DecidableEq

/-- First-match association-list lookup (HashMap::get). -/
def alookup {β : Type} (k : String) : List (String × β) → Option β
  | [] => none
  | (k2, v) :: rest => if k2 = k then some v else alookup k rest

/-- Association-list removal of a key (HashMap::remove). -/
def aremove {β : Type} (k : String) (l : List (String × β)) : List (String × β) :=
  l.filter (fun kv => kv.1 != k)

/-- Default AgentConfig from config.rs. -/
def AgentConfig.default_config : AgentConfig :=
  { trusted_drives := []
    backup_sources :=
      [ { label := "Documents", path := "~/Documents" },
        { label := "Pictures", path := "~/Pictures" },
        { label := "Desktop", path := "~/Desktop" } ]
    include_patterns := []
    exclude_patterns := []
    retention := RetentionPolicy.default_policy
    quick_verify := true
    deep_verify := false
    auto_backup_on_insert := true
    remember_passphrase := true
    paranoid_mode := false
    restic_path := none }

/-- Model of AgentConfig::enforce_security_invariants: paranoid mode
forcibly clears the remember-passphrase flag. -/
def AgentConfig.enforce_security_invariants (c : AgentConfig) : AgentConfig :=
  if c.paranoid_mode then { c with remember_passphrase := false } else c

/-- Label sanitization applied to one backup source on load/update. -/
def sanitizeSource (s : BackupSource) : BackupSource :=
  { s with label := (sanitizeLabelStr s.label).getD "Source" }

/-- Label sanitization applied to one trusted drive on load. -/
def sanitizeDrive (d : TrustedDrive) : TrustedDrive :=
  { d with
    label := d.label.bind sanitizeLabelStr
    backup_sources := d.backup_sources.map (fun l => l.map sanitizeSource) }

/-- Model of AgentConfig::load.  The filesystem is abstracted to the
outcome of reading and parsing the config file: none when the file does
not exist (the default config is written and returned), some parsed when
it parses; a parse failure returns an error and produces no config, so it
is not a case here. -/
def AgentConfig.load (file : Option AgentConfig) : AgentConfig :=
  match file with
  | none => AgentConfig.default_config
  | some parsed =>
    let c := { parsed with
      trusted_drives := parsed.trusted_drives.map
        (fun kv : String × TrustedDrive => (kv.1, sanitizeDrive kv.2))
      backup_sources := parsed.backup_sources.map sanitizeSource }
    c.enforce_security_invariants

/-- Model of ipc.rs ConfigUpdateRequest. -/
structure ConfigUpdateRequest where
  backup_sources : List BackupSource
  include_patterns : List String
  exclude_patterns : List String
  retention : RetentionPolicy
  quick_verify : Bool
  deep_verify : Bool
  auto_backup_on_insert : Bool
  remember_passphrase : Bool
  paranoid_mode : Bool
  deriving Repr, DecidableEq

/-- Model of the config mutation performed by the ipc.rs update_config
handler: overwrite the policy fields from the request (sanitizing source
labels) and re-enforce the security invariants.  Keychain deletion and
persistence do not affect the configuration value. -/
def update_config (c : AgentConfig) (req : ConfigUpdateRequest) : AgentConfig :=
  AgentConfig.enforce_security_invariants
    { c with
      backup_sources := req.backup_sources.map sanitizeSource
      include_patterns := req.include_patterns
      exclude_patterns := req.exclude_patterns
      retention := req.retention
      quick_verify := req.quick_verify
      deep_verify := req.deep_verify
      auto_backup_on_insert := req.auto_backup_on_insert
      remember_passphrase := req.remember_passphrase
      paranoid_mode := req.paranoid_mode }

/-- C10: after AgentConfig load and after every config update, paranoid
mode implies the remember-passphrase flag is cleared (stated as the
boolean conjunction being false). -/
theorem config_paranoid_invariant_c10 (file : Option AgentConfig)
    (c : AgentConfig) (req : ConfigUpdateRequest) :
    ((AgentConfig.load file).paranoid_mode &&
      (AgentConfig.load file).remember_passphrase) = false ∧
    ((update_config c req).paranoid_mode &&
      (update_config c req).remember_passphrase) = false := by
  constructor
  · cases file with
    | none => rfl
    | some parsed =>
      simp only [AgentConfig.load, AgentConfig.enforce_security_invariants]
      split
      · simp
      · rename_i hpar
        simp only [Bool.and_eq_false_iff]
        left
        revert hpar
        cases parsed.paranoid_mode <;> simp
  · simp only [update_config, AgentConfig.enforce_security_invariants]
    split
    · simp
    · rename_i hpar
      simp only [Bool.and_eq_false_iff]
      left
      revert hpar
      cases req.paranoid_mode <;> simp

/-- Small JSON value model for the serde round trip of the drive marker
(only the shapes the marker uses: null, string, number, object). -/
inductive Jval where
  | jnull : Jval
  | jstr : String → Jval
  | jnum : Nat → Jval
  | jobj : List (String × Jval) → Jval

/-- Model of drive.rs DriveMarker. -/
structure DriveMarker where
  drive_id : String
  created_epoch : Nat
  label : Option String
  repository_id : Option String
  deriving Repr, DecidableEq

/-- Serde encoding of an Option String field: None as null. -/
def optStrJson : Option String → Jval
  | none => Jval.jnull
  | some s => Jval.jstr s

/-- Serde serialization of a DriveMarker, fields in declaration order. -/
def encodeMarker (m : DriveMarker) : Jval :=
  Jval.jobj
    [ ("drive_id", Jval.jstr m.drive_id),
      ("created_epoch", Jval.jnum m.created_epoch),
      ("label", optStrJson m.label),
      ("repository_id", optStrJson m.repository_id) ]

/-- First-match field lookup in a JSON object. -/
def jlookup (k : String) : List (String × Jval) → Option Jval
  | [] => none
  | (k2, v) :: rest => if k2 = k then some v else jlookup k rest

/-- Decode a required JSON string field. -/
def decodeStr : Jval → Option String
  | Jval.jstr s => some s
  | _ => none

/-- Decode a required JSON number field. -/
def decodeNat : Jval → Option Nat
  | Jval.jnum n => some n
  | _ => none

/-- Decode an Option String field; serde accepts a missing field or null
as None for an Option. -/
def decodeOptStr : Option Jval → Option (Option String)
  | none => some none
  | some Jval.jnull => some none
  | some (Jval.jstr s) => some (some s)
  | some _ => none

/-- Serde deserialization of a DriveMarker. -/
def decodeMarker : Jval → Option DriveMarker
  | Jval.jobj fields => do
      let idv ← jlookup "drive_id" fields
      let id ← decodeStr idv
      let ev ← jlookup "created_epoch" fields
      let e ← decodeNat ev
      let lab ← decodeOptStr (jlookup "label" fields)
      let rid ← decodeOptStr (jlookup "repository_id" fields)
      some { drive_id := id, created_epoch := e, label := lab, repository_id := rid }
  | _ => none

/-- Removable-medium filesystem, mapping file paths to parsed JSON
contents; a written file shadows earlier entries for the same path. -/
def MediumFs : Type := List (String × Jval)

/-- Model of drive.rs marker_path: the marker file under the hidden
directory at the mount root. -/
def marker_path (root : String) : String := root ++ "/.aegis/drive.json"

/-- Model of drive.rs write_marker: serialize the marker and write it at
the marker path. -/
def write_marker (fs : MediumFs) (root : String) (m : DriveMarker) : MediumFs :=
  (marker_path root, encodeMarker m) :: fs

/-- Model of drive.rs read_marker: absent file reads as none, a parse
failure is an error, and the label is sanitized on the way in because the
medium is untrusted. -/
def read_marker (fs : MediumFs) (root : String) : Except Unit (Option DriveMarker) :=
  match jlookup (marker_path root) fs with
  | none => Except.ok none
  | some j =>
    match decodeMarker j with
    | none => Except.error ()
    | some m => Except.ok (some { m with label := m.label.bind sanitizeLabelStr })

/-- C8: writing a marker and reading it back from the same mount root
yields the marker with the same drive identity and repository id, and the
label after sanitization. -/
theorem marker_roundtrip_c8 (fs : MediumFs) (root : String) (m : DriveMarker) :
    read_marker (write_marker fs root m) root =
      Except.ok (some { m with label := m.label.bind sanitizeLabelStr }) := by
  cases hl : m.label <;> cases hr : m.repository_id <;>
    simp [read_marker, write_marker, jlookup, decodeMarker, encodeMarker,
      optStrJson, decodeStr, decodeNat, decodeOptStr, hl, hr]

/-- A subprocess invocation of the restic binary: program, command-line
arguments, and environment entries. -/
structure ResticCmd where
  program : String
  args : List String
  env : List (String × String)
  deriving Repr, DecidableEq

/-- The engine operations of restic.rs together with their non-secret
parameters. -/
inductive ResticOp where
  | initRepo : ResticOp
  | catConfig : ResticOp
  | backup (sources includes excludes : List String) : ResticOp
  | snapshots : ResticOp
  | stats (snapshot_id : String) : ResticOp
  | checkQuick : ResticOp
  | checkDeep : ResticOp
  | forgetPrune (retention_args : List String) : ResticOp
  | restore (snapshot_id target : String) (includes : List String) : ResticOp
  deriving Repr, DecidableEq

/-- Argument list built for the backup subcommand (restic.rs
backup_with_progress, lines 177 to 188). -/
def backupArgs (sources includes excludes : List String) : List String :=
  ["backup", "--json"] ++
  (includes.flatMap (fun i => ["--include", i])) ++
  (excludes.flatMap (fun e => ["--exclude", e])) ++
  sources

/-- Per-operation argument list as constructed in restic.rs; no operation
receives the passphrase as an argument. -/
def opArgs : ResticOp → List String
  | ResticOp.initRepo => ["init"]
  | ResticOp.catConfig => ["cat", "config"]
  | ResticOp.backup s i e => backupArgs s i e
  | ResticOp.snapshots => ["snapshots", "--json"]
  | ResticOp.stats sid => ["stats", "--json", "--snapshot", sid]
  | ResticOp.checkQuick => ["check", "--read-data-subset=1/20"]
  | ResticOp.checkDeep => ["check", "--read-data"]
  | ResticOp.forgetPrune ra => ["forget", "--prune"] ++ ra
  | ResticOp.restore sid target inc =>
      ["restore", sid, "--target", target] ++
      (inc.flatMap (fun i => ["--include", i]))

/-- Model of the command construction shared by Restic::run_capture,
Restic::run_capture_cancellable and Restic::backup_with_progress: repo
path as an argument, the passphrase only as the RESTIC_PASSWORD
environment variable. -/
def resticCommand (binary repo passphrase : String) (op : ResticOp) : ResticCmd :=
  { program := binary
    args := ["--repo", repo] ++ opArgs op
    env := [("RESTIC_PASSWORD", passphrase), ("RESTIC_PROGRESS_FPS", "0")] }

/-- C9: for every engine invocation the argument list does not depend on
the passphrase (so the passphrase never appears in it as an argument),
and the environment carries the passphrase exactly under the
RESTIC_PASSWORD variable. -/
theorem restic_passphrase_env_only_c9 (binary repo p1 p2 : String) (op : ResticOp) :
    (resticCommand binary repo p1 op).args = (resticCommand binary repo p2 op).args ∧
    (resticCommand binary repo p1 op).args = ["--repo", repo] ++ opArgs op ∧
    (resticCommand binary repo p1 op).env =
      [("RESTIC_PASSWORD", p1), ("RESTIC_PROGRESS_FPS", "0")] :=
  ⟨rfl, rfl, rfl⟩

/-- Model of state.rs RunStatus. -/
inductive RunStatus where
  | Success : RunStatus
  | Partial : RunStatus
  | Failed : RunStatus
  deriving Repr, DecidableEq

/-- Model of state.rs RunPhase. -/
inductive RunPhase where
  | Idle : RunPhase
  | WaitingForDrive : RunPhase
  | BackingUp : RunPhase
  | VerifyingQuick : RunPhase
  | VerifyingDeep : RunPhase
  | Pruning : RunPhase
  | Completed : RunPhase
  deriving Repr, DecidableEq

/-- Model of state.rs BackupProgress.  The percent_done field is an f64 in
the source; floating point is outside the embedding and no verified
property reads it, so only the integral and string fields are carried. -/
structure BackupProgress where
  message : String
  files_done : Nat
  total_files : Nat
  bytes_done : Nat
  total_bytes : Nat
  deriving Repr, DecidableEq

/-- Model of state.rs RunResult. -/
structure RunResult where
  status : RunStatus
  phase : RunPhase
  started_epoch : Nat
  finished_epoch : Option Nat
  message : String
  interrupted : Bool
  snapshot_id : Option String
  repository_id : Option String
  data_added : Option Nat
  files_processed : Option Nat
  deriving Repr, DecidableEq

/-- Model of state.rs DriveStatus. -/
structure DriveStatus where
  connected : Bool
  trusted : Bool
  drive_id : Option String
  label : Option String
  mount_path : Option String
  devnode : Option String
  deriving Repr, DecidableEq

/-- Model of state.rs AgentRuntimeState.  Cancellation tokens are modelled
by numeric identifiers; the ghost field cancelled_tokens records the
identifiers of tokens on which cancel has been called (raising the
token), so raise-then-remove behaviour is observable in the final
state. -/
structure AgentRuntimeState where
  config : AgentConfig
  drive_status : DriveStatus
  last_run : Option RunResult
  running_drive_ids : List String
  backup_progress : List (String × BackupProgress)
  running_cancel_tokens : List (String × Nat)
  restore_drive_id : Option String
  restore_cancel_token : Option Nat
  cancelled_tokens : List Nat
  deriving Repr, DecidableEq

/-- Model of usb.rs resolve_device_for_mount over a mount table of
(device, mount path) rows: first row whose mount path matches. -/
def resolve_device_for_mount (mounts : List (String × String)) (mount : String) :
    Option String :=
  match mounts with
  | [] => none
  | (device, mount_path) :: rest =>
    if mount_path = mount then some device else resolve_device_for_mount rest mount

/-- The early-return guard of usb.rs handle_removed (lines 300 to 310):
the event is ignored when the removed device node is not the device of
the currently recorded mount. -/
def removal_skipped (mounts : List (String × String)) (devnode : String)
    (s : AgentRuntimeState) : Bool :=
  match s.drive_status.mount_path with
  | none => false
  | some mp =>
    match resolve_device_for_mount mounts mp with
    | none => false
    | some device => device != devnode

/-- The Failed/interrupted run result written by handle_removed for an
in-flight backup on the removed drive. -/
def interruptedRunResult (now : Nat) : RunResult :=
  { status := RunStatus.Failed
    phase := RunPhase.Completed
    started_epoch := now
    finished_epoch := some now
    message := "Interrupted (drive disconnected)"
    interrupted := true
    snapshot_id := none
    repository_id := none
    data_added := none
    files_processed := none }

/-- Model of usb.rs handle_removed.  The mount table and the current
epoch are passed explicitly; the drive status is cleared, the removed
identity's backup cancel token is raised and dropped from the handle map,
an in-flight restore for that identity is cancelled, and an in-flight
backup is finalized as Failed/interrupted with its progress entry
removed. -/
def handle_removed (mounts : List (String × String)) (now : Nat) (devnode : String)
    (s : AgentRuntimeState) : AgentRuntimeState :=
  if removal_skipped mounts devnode s then s
  else
    let was_drive_id := s.drive_status.drive_id
    let s1 := { s with drive_status :=
      { connected := false, trusted := false, drive_id := none, label := none,
        mount_path := none, devnode := none } }
    match was_drive_id with
    | none => s1
    | some id =>
      let s2 :=
        match alookup id s1.running_cancel_tokens with
        | some tok =>
          { s1 with running_cancel_tokens := aremove id s1.running_cancel_tokens,
                    cancelled_tokens := tok :: s1.cancelled_tokens }
        | none => s1
      let s3 :=
        if s2.restore_drive_id = some id then
          { s2 with restore_drive_id := none,
                    restore_cancel_token := none,
                    cancelled_tokens :=
                      match s2.restore_cancel_token with
                      | some tok => tok :: s2.cancelled_tokens
                      | none => s2.cancelled_tokens }
        else s2
      if s3.running_drive_ids.contains id then
        { s3 with running_drive_ids := s3.running_drive_ids.filter (fun x => x != id),
                  backup_progress := aremove id s3.backup_progress,
                  last_run := some (interruptedRunResult now) }
      else s3

/-- Helper: looking up a key after removing it finds nothing. -/
theorem alookup_aremove {β : Type} (k : String) (l : List (String × β)) :
    alookup k (aremove k l) = none := by
  induction l with
  | nil => rfl
  | cons kv rest ih =>
    unfold aremove at ih ⊢
    rw [List.filter_cons]
    by_cases h : kv.1 = k
    · have hb : (kv.1 != k) = false := by simp [bne, h]
      rw [hb]
      simpa using ih
    · have hb : (kv.1 != k) = true := by simp [bne, h]
      rw [hb]
      simp only [if_true]
      unfold alookup
      rw [if_neg h]
      exact ih

/-- Helper: a value never survives filtering itself out. -/
theorem not_mem_filter_self (k : String) (l : List String) :
    k ∉ l.filter (fun x => x != k) := by
  intro h
  have h2 := List.of_mem_filter h
  simp [bne] at h2

/-- C2: when the removal event for the currently connected drive is
handled while a backup is in flight for that identity, the last run is
finalized as Failed/interrupted, the progress entry is removed, the drive
leaves the running set, and the cancellation handle is removed from the
handle map after being raised. -/
theorem handle_removed_c2 (mounts : List (String × String)) (now : Nat)
    (devnode id : String) (tok : Nat) (s : AgentRuntimeState)
    (hskip : removal_skipped mounts devnode s = false)
    (hid : s.drive_status.drive_id = some id)
    (hrun : s.running_drive_ids.contains id = true) :
    (handle_removed mounts now devnode s).last_run = some (interruptedRunResult now) ∧
    alookup id (handle_removed mounts now devnode s).backup_progress = none ∧
    (handle_removed mounts now devnode s).running_drive_ids.contains id = false ∧
    alookup id (handle_removed mounts now devnode s).running_cancel_tokens = none ∧
    (alookup id s.running_cancel_tokens = some tok →
      tok ∈ (handle_removed mounts now devnode s).cancelled_tokens) := by
  have hmem : id ∈ s.running_drive_ids := by simpa using hrun
  unfold handle_removed
  rw [hskip, hid]
  simp only [Bool.false_eq_true, if_false]
  rcases halk : alookup id s.running_cancel_tokens with _ | tok2 <;>
    by_cases hres : s.restore_drive_id = some id <;>
      rcases hrt : s.restore_cancel_token with _ | rtok <;>
        simp [halk, hres, hrt, hmem, alookup_aremove, not_mem_filter_self,
          interruptedRunResult] <;>
          (intro h; subst h; simp)

/-- Concrete runtime state with an in-flight backup for drive d1, used by
the handle_removed witness. -/
def c2State : AgentRuntimeState :=
  { config := AgentConfig.default_config
    drive_status :=
      { connected := true, trusted := true, drive_id := some "d1",
        label := some "Drive", mount_path := none, devnode := some "/dev/sdb1" }
    last_run := none
    running_drive_ids := ["d1"]
    backup_progress :=
      [("d1", { message := "Backing up", files_done := 1, total_files := 2,
                bytes_done := 10, total_bytes := 20 })]
    running_cancel_tokens := [("d1", 7)]
    restore_drive_id := none
    restore_cancel_token := none
    cancelled_tokens := [] }

/-- Witness for handle_removed_c2 at a concrete in-flight state. -/
theorem handle_removed_c2_witness :
    removal_skipped [] "/dev/sdb1" c2State = false ∧
    c2State.drive_status.drive_id = some "d1" ∧
    c2State.running_drive_ids.contains "d1" = true ∧
    ((handle_removed [] 5 "/dev/sdb1" c2State).last_run =
        some (interruptedRunResult 5) ∧
      alookup "d1" (handle_removed [] 5 "/dev/sdb1" c2State).backup_progress = none ∧
      (handle_removed [] 5 "/dev/sdb1" c2State).running_drive_ids.contains "d1" = false ∧
      alookup "d1" (handle_removed [] 5 "/dev/sdb1" c2State).running_cancel_tokens = none ∧
      (alookup "d1" c2State.running_cancel_tokens = some 7 →
        7 ∈ (handle_removed [] 5 "/dev/sdb1" c2State).cancelled_tokens)) :=
  ⟨by decide, by decide, by decide,
    handle_removed_c2 [] 5 "/dev/sdb1" "d1" 7 c2State (by decide) (by decide) (by decide)⟩

/-- Model of ipc.rs BackupRequest. -/
structure BackupRequest where
  drive_id : String
  passphrase : Option String
  deriving Repr, DecidableEq

/-- Model of ipc.rs resolve_passphrase.  The keychain read is an oracle:
none models a keychain error, some v the stored lookup result. -/
def resolve_passphrase (keychain : Option (Option String)) (config : AgentConfig)
    (provided : Option String) : Except (Nat × String) String :=
  match provided with
  | some pass =>
    if (rustTrim pass.data).isEmpty then Except.error (400, "passphrase required")
    else Except.ok pass
  | none =>
    if config.remember_passphrase && !config.paranoid_mode then
      match keychain with
      | none => Except.error (500, "keychain error")
      | some none => Except.error (400, "passphrase required")
      | some (some v) => Except.ok v
    else Except.error (400, "passphrase required")

/-- Model of ipc.rs ensure_mounted_drive. -/
def ensure_mounted_drive (s : AgentRuntimeState) (drive_id : String) :
    Except (Nat × String) String :=
  if !s.drive_status.connected || !s.drive_status.trusted then
    Except.error (400, "trusted drive not connected")
  else if s.drive_status.drive_id ≠ some drive_id then
    Except.error (400, "drive mismatch")
  else
    match s.drive_status.mount_path with
    | some mp => Except.ok mp
    | none => Except.error (400, "drive not mounted")

/-- Model of the ipc.rs start_backup handler up to spawning the backup
task: conflict check first, then trusted-drive lookup, passphrase
resolution and mount check, and only then insertion into the running set.
Returns the HTTP-level outcome together with the runtime state as left by
the handler itself. -/
def start_backup (keychain : Option (Option String)) (req : BackupRequest)
    (s : AgentRuntimeState) : Except (Nat × String) String × AgentRuntimeState :=
  if s.running_drive_ids.contains req.drive_id then
    (Except.error (409, "backup already running for this drive"), s)
  else
    match alookup req.drive_id s.config.trusted_drives with
    | none => (Except.error (400, "unknown drive"), s)
    | some _drive =>
      match resolve_passphrase keychain s.config req.passphrase with
      | Except.error e => (Except.error e, s)
      | Except.ok _pass =>
        match ensure_mounted_drive s req.drive_id with
        | Except.error e => (Except.error e, s)
        | Except.ok _mount =>
          (Except.ok "started",
            { s with running_drive_ids := req.drive_id :: s.running_drive_ids })

/-- C3: starting a manual backup for a drive that already has one in
flight returns the 409 conflict and leaves the runtime state untouched,
so no second running-set entry and no second cancellation handle
appear. -/
theorem start_backup_conflict_c3 (keychain : Option (Option String))
    (req : BackupRequest) (s : AgentRuntimeState)
    (h : s.running_drive_ids.contains req.drive_id = true) :
    start_backup keychain req s =
      (Except.error (409, "backup already running for this drive"), s) := by
  unfold start_backup
  rw [h]
  rfl

/-- Witness for start_backup_conflict_c3: a second manual start for the
already running drive d1. -/
theorem start_backup_conflict_c3_witness :
    c2State.running_drive_ids.contains "d1" = true ∧
    start_backup none { drive_id := "d1", passphrase := some "pw" } c2State =
      (Except.error (409, "backup already running for this drive"), c2State) :=
  ⟨by decide,
    start_backup_conflict_c3 none { drive_id := "d1", passphrase := some "pw" }
      c2State (by decide)⟩

/-- Model of ipc.rs RestoreRequest. -/
structure RestoreRequest where
  drive_id : String
  snapshot_id : String
  target_path : String
  include_paths : List String
  passphrase : Option String
  deriving Repr, DecidableEq

/-- Oracles for the restore handler: keychain read result, whether the
restic binary resolves, whether the engine restore succeeds, and the
fresh cancellation-token identifier created for this request. -/
structure RestoreEnv where
  keychain : Option (Option String)
  restic_resolve_ok : Bool
  restore_ok : Bool
  fresh_token : Nat
  deriving Repr, DecidableEq

/-- Model of ipc.rs restore_snapshot up to the engine invocation (lines
821 to 844): validation, then the restore slot is set to this request's
drive id and a freshly created cancellation token.  The handler performs
no check that a restore is already in progress. -/
def restore_begin (env : RestoreEnv) (req : RestoreRequest) (s : AgentRuntimeState) :
    Except (Nat × String) AgentRuntimeState :=
  if (rustTrim req.target_path.data).isEmpty then
    Except.error (400, "target path required")
  else
    match alookup req.drive_id s.config.trusted_drives with
    | none => Except.error (400, "unknown drive")
    | some _drive =>
      match ensure_mounted_drive s req.drive_id with
      | Except.error e => Except.error e
      | Except.ok _mount =>
        match resolve_passphrase env.keychain s.config req.passphrase with
        | Except.error e => Except.error e
        | Except.ok _pass =>
          if !env.restic_resolve_ok then
            Except.error (500, "restic not available")
          else
            Except.ok { s with restore_drive_id := some req.drive_id,
                               restore_cancel_token := some env.fresh_token }

/-- Model of the tail of ipc.rs restore_snapshot (lines 845 to 862): the
engine restore runs, then the restore slot is cleared unconditionally and
the engine outcome is returned. -/
def restore_finish (restore_ok : Bool) (s : AgentRuntimeState) :
    Except (Nat × String) String × AgentRuntimeState :=
  let s2 := { s with restore_drive_id := none, restore_cancel_token := none }
  if restore_ok then (Except.ok "completed", s2)
  else (Except.error (500, "restore failed"), s2)

/-- Model of the full ipc.rs restore_snapshot handler. -/
def restore_snapshot (env : RestoreEnv) (req : RestoreRequest) (s : AgentRuntimeState) :
    Except (Nat × String) String × AgentRuntimeState :=
  match restore_begin env req s with
  | Except.error e => (Except.error e, s)
  | Except.ok s1 => restore_finish env.restore_ok s1

/-- Runtime state with a restore already in flight for drive d1 (slot set,
token 1 live and not cancelled), drive d1 connected and trusted. -/
def c4State : AgentRuntimeState :=
  { config :=
    { AgentConfig.default_config with
      trusted_drives :=
        [("d1",
          { drive_id := "d1", label := some "USB", repository_path := "backup",
            repository_id := none, last_seen_epoch := none, last_backup_epoch := none,
            last_backup_snapshot_id := none, backup_sources := none })] }
    drive_status :=
      { connected := true, trusted := true, drive_id := some "d1",
        label := some "USB", mount_path := some "/media/usb", devnode := some "/dev/sdb1" }
    last_run := none
    running_drive_ids := []
    backup_progress := []
    running_cancel_tokens := []
    restore_drive_id := some "d1"
    restore_cancel_token := some 1
    cancelled_tokens := [] }

/-- Oracles for the second restore request: everything succeeds and the
handler creates fresh token 2. -/
def c4Env : RestoreEnv :=
  { keychain := none, restic_resolve_ok := true, restore_ok := true, fresh_token := 2 }

/-- The second restore request, arriving while the first is in flight. -/
def c4Req : RestoreRequest :=
  { drive_id := "d1", snapshot_id := "snap2", target_path := "/tmp/out",
    include_paths := [], passphrase := some "pw" }

/-- C4 failing-input evaluation: with a restore already in flight
(restore_drive_id = some d1, live token 1), a second restore request is
accepted rather than rejected with a 409 conflict; the handler replaces
the in-flight restore's slot and token with its own fresh token, and the
original token 1 is dropped without ever being raised. -/
theorem restore_no_conflict_check_c4 :
    restore_begin c4Env c4Req c4State =
      Except.ok { c4State with restore_drive_id := some "d1",
                               restore_cancel_token := some 2 } ∧
    (restore_snapshot c4Env c4Req c4State).1 = Except.ok "completed" ∧
    (restore_snapshot c4Env c4Req c4State).2.restore_cancel_token = none ∧
    (restore_snapshot c4Env c4Req c4State).2.cancelled_tokens = [] := by
  exact ⟨rfl, rfl, rfl, rfl⟩

/-- Model of restic.rs BackupSummary. -/
structure BackupSummary where
  snapshot_id : Option String
  data_added : Option Nat
  files_processed : Option Nat
  deriving Repr, DecidableEq

/-- Oracles for one backup run: whether the restic binary resolves,
whether the repository metadata file exists, the init outcome, the
expanded source list, the backup-step outcome (none models failure or
cancellation), the verify and prune outcomes, and the drive status
observed at the final connectivity re-check. -/
structure RunEnv where
  restic_resolve_ok : Bool
  repo_config_exists : Bool
  init_result : Option String
  sources : List String
  backup_result : Option BackupSummary
  quick_verify_ok : Bool
  deep_verify_ok : Bool
  prune_ok : Bool
  status_at_end : DriveStatus
  deriving Repr, DecidableEq

/-- Errors that abort a run before its phases complete (backup.rs
run_backup lines 57 to 131). -/
inductive RunError where
  | resticResolve : RunError
  | unknownDrive : RunError
  | initFailed : RunError
  | noSources : RunError
  | backupFailed : RunError
  deriving Repr, DecidableEq

/-- The verify and prune phase folding of backup.rs run_backup lines 134
to 190: status starts Success, a quick or deep verification failure
downgrades it to Partial with a phase message, pruning runs only when the
status is still Success and retention is enabled, and a prune failure
downgrades to Partial.  Returns final status, message, and whether the
pruning phase ran. -/
def post_backup_phases (config : AgentConfig) (env : RunEnv) : RunStatus × String × Bool :=
  let r1 := if config.quick_verify && !env.quick_verify_ok then
      (RunStatus.Partial, "Backup completed, but verification failed")
    else (RunStatus.Success, "Backup completed")
  let r2 := if config.deep_verify && !env.deep_verify_ok then
      (RunStatus.Partial, "Backup completed, but deep verification failed")
    else r1
  let do_prune := (r2.1 == RunStatus.Success) && config.retention.enabled
  let r3 := if do_prune && !env.prune_ok then
      (RunStatus.Partial, "Backup completed, but retention failed")
    else r2
  (r3.1, r3.2, do_prune)

/-- Model of the inner pipeline of backup.rs run_backup (lines 57 to
223): resolve restic, resolve the repository path from the trust record,
initialize the repository when its metadata file is absent, expand
sources, run the backup step, fold the verify and prune phases, then
re-check connectivity for this drive identity and override the outcome to
Failed/interrupted when the drive is gone. -/
def run_backup_core (config : AgentConfig) (drive_id : String) (env : RunEnv)
    (started finished : Nat) : Except RunError RunResult :=
  if !env.restic_resolve_ok then Except.error RunError.resticResolve
  else
    match alookup drive_id config.trusted_drives with
    | none => Except.error RunError.unknownDrive
    | some drive =>
      if !env.repo_config_exists && env.init_result.isNone then
        Except.error RunError.initFailed
      else if env.sources.isEmpty then Except.error RunError.noSources
      else
        match env.backup_result with
        | none => Except.error RunError.backupFailed
        | some summary =>
          Except.ok
            { status :=
                if !(env.status_at_end.connected &&
                    (env.status_at_end.drive_id == some drive_id)) then RunStatus.Failed
                else (post_backup_phases config env).1
              phase := RunPhase.Completed
              started_epoch := started
              finished_epoch := some finished
              message :=
                if !(env.status_at_end.connected &&
                    (env.status_at_end.drive_id == some drive_id)) then
                  "Interrupted (drive disconnected)"
                else (post_backup_phases config env).2.1
              interrupted :=
                !(env.status_at_end.connected &&
                  (env.status_at_end.drive_id == some drive_id))
              snapshot_id := summary.snapshot_id
              repository_id :=
                if !env.repo_config_exists then env.init_result else drive.repository_id
              data_added := summary.data_added
              files_processed := summary.files_processed }

/-- Model of the run result recorded by run_backup (outer match, lines
226 to 269): on an inner error the run is recorded as Failed, interrupted
exactly when the drive is no longer the connected one. -/
def run_backup_result (config : AgentConfig) (drive_id : String) (env : RunEnv)
    (started finished : Nat) : RunResult :=
  match run_backup_core config drive_id env started finished with
  | Except.ok r => r
  | Except.error _ =>
    { status := RunStatus.Failed
      phase := RunPhase.Completed
      started_epoch := started
      finished_epoch := some finished
      message :=
        if !(env.status_at_end.connected && (env.status_at_end.drive_id == some drive_id))
        then "Interrupted (drive disconnected)" else "Backup failed"
      interrupted :=
        !(env.status_at_end.connected && (env.status_at_end.drive_id == some drive_id))
      snapshot_id := none
      repository_id := none
      data_added := none
      files_processed := none }

/-- Helper: inversion of a successful run_backup_core. -/
theorem run_backup_core_ok (config : AgentConfig) (drive_id : String) (env : RunEnv)
    (started finished : Nat) (r : RunResult)
    (hc : run_backup_core config drive_id env started finished = Except.ok r) :
    ∃ drive summary,
      alookup drive_id config.trusted_drives = some drive ∧
      env.backup_result = some summary ∧
      r.status =
        (if !(env.status_at_end.connected && (env.status_at_end.drive_id == some drive_id))
          then RunStatus.Failed else (post_backup_phases config env).1) ∧
      r.interrupted =
        (!(env.status_at_end.connected && (env.status_at_end.drive_id == some drive_id))) ∧
      r.message =
        (if !(env.status_at_end.connected && (env.status_at_end.drive_id == some drive_id))
          then "Interrupted (drive disconnected)" else (post_backup_phases config env).2.1) ∧
      r.phase = RunPhase.Completed ∧
      r.snapshot_id = summary.snapshot_id := by
  unfold run_backup_core at hc
  split at hc
  · simp at hc
  · split at hc
    · simp at hc
    · rename_i drive halk
      split at hc
      · simp at hc
      · split at hc
        · simp at hc
        · split at hc
          · simp at hc
          · rename_i summary hbk
            refine ⟨drive, summary, halk, hbk, ?_⟩
            injection hc with hr
            subst hr
            exact ⟨rfl, rfl, rfl, rfl, rfl⟩

/-- C1: whatever the phase outcomes, when the drive identity is no longer
the connected drive at the end-of-run re-check, the recorded run result
is Failed with interrupted set. -/
theorem run_backup_disconnect_c1 (config : AgentConfig) (drive_id : String)
    (env : RunEnv) (started finished : Nat)
    (h : (env.status_at_end.connected && (env.status_at_end.drive_id == some drive_id)) = false) :
    (run_backup_result config drive_id env started finished).status = RunStatus.Failed ∧
    (run_backup_result config drive_id env started finished).interrupted = true := by
  unfold run_backup_result
  cases hc : run_backup_core config drive_id env started finished with
  | error e => simp [h]
  | ok r =>
    obtain ⟨drive, summary, _, _, hst, hint, _, _, _⟩ :=
      run_backup_core_ok config drive_id env started finished r hc
    rw [hst, hint, h]
    exact ⟨rfl, rfl⟩

/-- Helper: the explicit run result when every pre-phase step succeeds. -/
theorem run_backup_core_success (config : AgentConfig) (drive_id : String) (env : RunEnv)
    (started finished : Nat) (drive : TrustedDrive) (summary : BackupSummary)
    (h1 : env.restic_resolve_ok = true)
    (h2 : alookup drive_id config.trusted_drives = some drive)
    (h3 : (!env.repo_config_exists && env.init_result.isNone) = false)
    (h4 : env.sources.isEmpty = false)
    (h5 : env.backup_result = some summary) :
    run_backup_core config drive_id env started finished =
      Except.ok
        { status :=
            if !(env.status_at_end.connected && (env.status_at_end.drive_id == some drive_id))
            then RunStatus.Failed else (post_backup_phases config env).1
          phase := RunPhase.Completed
          started_epoch := started
          finished_epoch := some finished
          message :=
            if !(env.status_at_end.connected && (env.status_at_end.drive_id == some drive_id))
            then "Interrupted (drive disconnected)"
            else (post_backup_phases config env).2.1
          interrupted :=
            !(env.status_at_end.connected && (env.status_at_end.drive_id == some drive_id))
          snapshot_id := summary.snapshot_id
          repository_id :=
            if !env.repo_config_exists then env.init_result else drive.repository_id
          data_added := summary.data_added
          files_processed := summary.files_processed } := by
  unfold run_backup_core
  rw [h2, h3, h5]
  simp [h1, h4]

/-- C6: when the backup step succeeds and the drive is still connected at
the end, a quick or deep verification failure leaves the run Partial (not
Failed) with a verification-failure message and the run still completes;
the pruning phase runs exactly when retention is enabled and no
verification degradation occurred; and a pruning failure likewise leaves
the run Partial without aborting it. -/
theorem run_backup_partial_c6 (config : AgentConfig) (drive_id : String)
    (env : RunEnv) (started finished : Nat) (drive : TrustedDrive) (summary : BackupSummary)
    (h1 : env.restic_resolve_ok = true)
    (h2 : alookup drive_id config.trusted_drives = some drive)
    (h3 : (!env.repo_config_exists && env.init_result.isNone) = false)
    (h4 : env.sources.isEmpty = false)
    (h5 : env.backup_result = some summary)
    (hconn : (env.status_at_end.connected && (env.status_at_end.drive_id == some drive_id)) = true) :
    (((config.quick_verify && !env.quick_verify_ok) = true ∨
        (config.deep_verify && !env.deep_verify_ok) = true) →
      (run_backup_result config drive_id env started finished).status = RunStatus.Partial ∧
      ((run_backup_result config drive_id env started finished).message =
          "Backup completed, but verification failed" ∨
        (run_backup_result config drive_id env started finished).message =
          "Backup completed, but deep verification failed")) ∧
    ((post_backup_phases config env).2.2 = true ↔
      (config.retention.enabled = true ∧
        (config.quick_verify && !env.quick_verify_ok) = false ∧
        (config.deep_verify && !env.deep_verify_ok) = false)) ∧
    ((post_backup_phases config env).2.2 = true → env.prune_ok = false →
      (run_backup_result config drive_id env started finished).status = RunStatus.Partial ∧
      (run_backup_result config drive_id env started finished).message =
        "Backup completed, but retention failed") ∧
    (run_backup_result config drive_id env started finished).phase = RunPhase.Completed ∧
    (run_backup_result config drive_id env started finished).snapshot_id = summary.snapshot_id := by
  have hres : run_backup_result config drive_id env started finished =
      { status := (post_backup_phases config env).1
        phase := RunPhase.Completed
        started_epoch := started
        finished_epoch := some finished
        message := (post_backup_phases config env).2.1
        interrupted := false
        snapshot_id := summary.snapshot_id
        repository_id :=
          if !env.repo_config_exists then env.init_result else drive.repository_id
        data_added := summary.data_added
        files_processed := summary.files_processed } := by
    unfold run_backup_result
    rw [run_backup_core_success config drive_id env started finished drive summary
      h1 h2 h3 h4 h5, hconn]
    rfl
  rw [hres]
  cases hq : (config.quick_verify && !env.quick_verify_ok) <;>
    cases hd : (config.deep_verify && !env.deep_verify_ok) <;>
      cases hr : config.retention.enabled <;>
        cases hp : env.prune_ok <;>
          simp [post_backup_phases, hq, hd, hr, hp]

/-- Concrete trusted drive record for the run witnesses. -/
def demoDrive : TrustedDrive :=
  { drive_id := "d1", label := some "USB", repository_path := "backup",
    repository_id := none, last_seen_epoch := none, last_backup_epoch := none,
    last_backup_snapshot_id := none, backup_sources := none }

/-- Concrete configuration trusting drive d1, defaults otherwise. -/
def demoConfig : AgentConfig :=
  { AgentConfig.default_config with trusted_drives := [("d1", demoDrive)] }

/-- Concrete backup summary for the run witnesses. -/
def demoSummary : BackupSummary :=
  { snapshot_id := some "abc123", data_added := some 1024, files_processed := some 42 }

/-- Run oracles for the C1 witness: every phase succeeds but the drive is
gone at the final connectivity re-check. -/
def c1Env : RunEnv :=
  { restic_resolve_ok := true, repo_config_exists := true, init_result := none,
    sources := ["/home/user/Documents"], backup_result := some demoSummary,
    quick_verify_ok := true, deep_verify_ok := true, prune_ok := true,
    status_at_end :=
      { connected := false, trusted := false, drive_id := none, label := none,
        mount_path := none, devnode := none } }

/-- Witness for run_backup_disconnect_c1: all phases succeeded, drive
disconnected at the end, run recorded Failed and interrupted. -/
theorem run_backup_disconnect_c1_witness :
    (c1Env.status_at_end.connected && (c1Env.status_at_end.drive_id == some "d1")) = false ∧
    ((run_backup_result demoConfig "d1" c1Env 10 20).status = RunStatus.Failed ∧
      (run_backup_result demoConfig "d1" c1Env 10 20).interrupted = true) :=
  ⟨by decide, run_backup_disconnect_c1 demoConfig "d1" c1Env 10 20 (by decide)⟩

/-- Run oracles for the C6 witness: quick verification fails, deep
verification and pruning are disabled by demoConfig, drive still
connected at the end. -/
def c6Env : RunEnv :=
  { restic_resolve_ok := true, repo_config_exists := true, init_result := none,
    sources := ["/home/user/Documents"], backup_result := some demoSummary,
    quick_verify_ok := false, deep_verify_ok := true, prune_ok := true,
    status_at_end :=
      { connected := true, trusted := true, drive_id := some "d1", label := some "USB",
        mount_path := some "/media/usb", devnode := some "/dev/sdb1" } }

/-- Witness for run_backup_partial_c6: quick verification fails while
deep verification and retention are disabled; the run ends Partial with
the verification-failure message and pruning does not run. -/
theorem run_backup_partial_c6_witness :
    c6Env.restic_resolve_ok = true ∧
    alookup "d1" demoConfig.trusted_drives = some demoDrive ∧
    (!c6Env.repo_config_exists && c6Env.init_result.isNone) = false ∧
    c6Env.sources.isEmpty = false ∧
    c6Env.backup_result = some demoSummary ∧
    (c6Env.status_at_end.connected && (c6Env.status_at_end.drive_id == some "d1")) = true ∧
    ((((demoConfig.quick_verify && !c6Env.quick_verify_ok) = true ∨
        (demoConfig.deep_verify && !c6Env.deep_verify_ok) = true) →
      (run_backup_result demoConfig "d1" c6Env 10 20).status = RunStatus.Partial ∧
      ((run_backup_result demoConfig "d1" c6Env 10 20).message =
          "Backup completed, but verification failed" ∨
        (run_backup_result demoConfig "d1" c6Env 10 20).message =
          "Backup completed, but deep verification failed")) ∧
    ((post_backup_phases demoConfig c6Env).2.2 = true ↔
      (demoConfig.retention.enabled = true ∧
        (demoConfig.quick_verify && !c6Env.quick_verify_ok) = false ∧
        (demoConfig.deep_verify && !c6Env.deep_verify_ok) = false)) ∧
    ((post_backup_phases demoConfig c6Env).2.2 = true → c6Env.prune_ok = false →
      (run_backup_result demoConfig "d1" c6Env 10 20).status = RunStatus.Partial ∧
      (run_backup_result demoConfig "d1" c6Env 10 20).message =
        "Backup completed, but retention failed") ∧
    (run_backup_result demoConfig "d1" c6Env 10 20).phase = RunPhase.Completed ∧
    (run_backup_result demoConfig "d1" c6Env 10 20).snapshot_id = demoSummary.snapshot_id) :=
  ⟨by decide, by decide, by decide, by decide, by decide, by decide,
    run_backup_partial_c6 demoConfig "d1" c6Env 10 20 demoDrive demoSummary
      (by decide) (by decide) (by decide) (by decide) (by decide) (by decide)⟩

end Aegis
